import Mathlib

/-
Shallow embedding of the routing and session-memory code of the chatbot
repository (agent.py, memory.py, tools.py), together with proofs and refutations
of its specified properties.  Python strings are Lean Strings, the LangChain
ConversationBufferMemory message list is a Lean list of messages, Python
dicts are insertion-ordered association lists, wall-clock timestamps are
Nat ticks passed explicitly to every operation that calls datetime.now(),
and the LLM classifier is an Option String argument (none models a raised
exception or timeout).  Python str.lower and str.strip are modelled over
character lists (ASCII case folding, which covers every string the code
manipulates).
-/

set_option maxRecDepth 8000

namespace Chatbot

/-- Prefix test on character lists (needle first), used to mirror Python
substring search. -/
def isPre : List Char → List Char → Bool
  | [], _ => true
  | _ :: _, [] => false
  | a :: as, b :: bs => a == b && isPre as bs

/-- The needle occurs as a contiguous substring of the haystack list. -/
def containsSub (needle : List Char) : List Char → Bool
  | [] => needle.isEmpty
  | c :: rest => isPre needle (c :: rest) || containsSub needle rest

/-- Python `needle in haystack` on strings. -/
def strContains (haystack needle : String) : Bool :=
  containsSub needle.data haystack.data

/-- Python str.lower (ASCII case folding). -/
def pyLower (s : String) : String := String.mk (s.data.map Char.toLower)

/-- Characters removed by Python str.strip. -/
def pyWhitespace (c : Char) : Bool :=
  c == ' ' || c == '\t' || c == '\n' || c == '\r' || c == '\x0b' || c == '\x0c'

/-- Python str.strip. -/
def pyStrip (s : String) : String :=
  String.mk (((s.data.dropWhile pyWhitespace).reverse.dropWhile pyWhitespace).reverse)

/-! ## tools.py -/

/-- tools.py positive_tool. -/
def positiveTool (query : String) : String :=
  let q := pyLower query
  if strContains q "happy" || strContains q "great" then
    " That\x27s wonderful! Keep that positive energy going! Your happiness is inspiring!"
  else if strContains q "motivat" || strContains q "inspire" then
    "You\x27ve got this! Every small step counts. Keep pushing forward - you\x27re stronger than you think!"
  else
    " Stay positive! You\x27re doing amazing. Keep that great attitude!"

/-- tools.py negative_tool. -/
def negativeTool (_query : String) : String :=
  "I hear you, and your feelings are completely valid. \n\nRemember:\n- It\x27s okay to not be okay sometimes\n- This difficult moment will pass\n- You\x27ve overcome challenges before, and you can do it again\n- Small steps are still progress\n- Take care of yourself today\n\nTomorrow is a new day with new possibilities. "

/-- tools.py crisis_tool (fixed support text, abbreviated transcription of
the resource list; no claim depends on its exact wording). -/
def crisisTool (_query : String) : String :=
  "\n🆘 IMMEDIATE CRISIS SUPPORT RESOURCES\n==========================================\n\nIf you\x27re in crisis, please reach out RIGHT NOW:\n\n📞 EMERGENCY HELPLINES:\n  • 988 (US) - Suicide & Crisis Lifeline\n    Available 24/7 - Call or Text\n  \n  • Text HOME to 741741\n    Crisis Text Line - Free 24/7 support\n  \n  • 911 - For immediate emergency\n\n🌍 INTERNATIONAL:\n  Visit: https://www.iasp.info/resources/Crisis_Centres/\n\n💙 YOU ARE NOT ALONE\nYour life has value. Help is available RIGHT NOW.\n\nPlease reach out to:\n  ✓ A trusted friend or family member\n  ✓ Mental health professional\n  ✓ Hospital emergency room\n  ✓ Call 911 if in immediate danger\n\nThis feeling is temporary. Help is available. You matter.\n==========================================\n"

/-- Student records of tools.py student_marks_tool: subject marks plus the
GPA, the latter modelled by its exact decimal rendering since the code only
ever interpolates it into the report string. -/
def students : List (String × (List (String × Nat) × String)) :=
  [("john", ([("Math", 85), ("Science", 92), ("English", 78), ("History", 88)], "3.6")),
   ("sarah", ([("Math", 95), ("Science", 89), ("English", 91), ("History", 87)], "3.9")),
   ("mike", ([("Math", 72), ("Science", 68), ("English", 85), ("History", 79)], "3.0")),
   ("bob", ([("Math", 99), ("Science", 77), ("English", 88), ("History", 99)], "4.0"))]

/-- Keys of the students dict, in insertion order. -/
def studentKeys : List String := students.map Prod.fst

/-- Python str.title for the single lowercase words it is applied to. -/
def titleStr (s : String) : String :=
  match s.data with
  | [] => ""
  | c :: rest => String.mk (c.toUpper :: rest)

/-- Python format spec `:12s`: left-justify to width 12. -/
def padRight12 (s : String) : String :=
  s ++ String.mk (List.replicate (12 - s.length) ' ')

/-- A row of 45 equals signs, Python `"=" * 45`. -/
def eq45 : String := String.mk (List.replicate 45 '=')

/-- Report text built by tools.py student_marks_tool for a found student. -/
def academicReport (name : String) (subjects : List (String × Nat)) (gpa : String) : String :=
  "\n Academic Report for " ++ titleStr name ++ "\n" ++ eq45 ++ "\n\n" ++
  String.join (subjects.map (fun p => "  " ++ padRight12 p.1 ++ " : " ++ toString p.2 ++ "/100\n")) ++
  "\n" ++ eq45 ++ "\n" ++ "  Overall GPA  : " ++ gpa ++ "/4.0\n" ++ eq45

/-- The not-found message of tools.py student_marks_tool, interpolating the
original (unnormalized) argument. -/
def notFoundMsg (studentName : String) : String :=
  "Student \x27" ++ studentName ++ "\x27 not found.\n\nAvailable students: John, Sarah, Mike, Bob"

/-- The report produced for a given students-dict key (helper used to state
properties of student_marks_tool). -/
def reportForKey (key : String) : String :=
  match students.find? (fun p => p.1 == key) with
  | some pr => academicReport pr.1 pr.2.1 pr.2.2
  | none => notFoundMsg key

/-- tools.py student_marks_tool: lowercases and strips the argument, scans
the student keys for one occurring as a substring of the argument, and
renders that student\x27s report, or the not-found message if the final name
is not a key. -/
def studentMarksTool (studentName : String) : String :=
  let name0 := pyStrip (pyLower studentName)
  let name :=
    match studentKeys.find? (fun k => strContains name0 k) with
    | some k => k
    | none => name0
  match students.find? (fun p => p.1 == name) with
  | some pr => academicReport pr.1 pr.2.1 pr.2.2
  | none => notFoundMsg studentName

/-! ## agent.py routing -/

/-- Crisis markers of ChatbotAgent._keyword_match. -/
def crisisMarkers : List String :=
  ["suicide", "kill myself", "self-harm", "end it", "want to die"]

/-- Academic markers of ChatbotAgent._keyword_match. -/
def academicMarkers : List String :=
  ["marks", "grades", "john", "sarah", "mike", "bob", "gpa"]

/-- Negative-sentiment words of ChatbotAgent._keyword_match. -/
def negativeWords : List String :=
  ["sad", "down", "bad", "upset", "depressed", "heartbroken",
   "miserable", "terrible", "awful", "struggling", "hopeless"]

/-- Positive-sentiment words of ChatbotAgent._keyword_match. -/
def positiveWords : List String :=
  ["happy", "great", "good", "wonderful", "awesome",
   "hi", "hello", "hey", "morning", "afternoon", "evening"]

/-- Some word of the list occurs in the lowercased message (the shape of
every membership test in _keyword_match). -/
def hasAnyMarker (message : String) (words : List String) : Bool :=
  words.any (fun w => strContains (pyLower message) w)

/-- agent.py ChatbotAgent._keyword_match. -/
def keywordMatch (message : String) : String :=
  let msg := pyLower message
  if crisisMarkers.any (fun w => strContains msg w) then "crisis_tool"
  else if academicMarkers.any (fun w => strContains msg w) then "student_marks_tool"
  else if negativeWords.any (fun w => strContains msg w) then "negative_tool"
  else if positiveWords.any (fun w => strContains msg w) then "positive_tool"
  else "positive_tool"

/-- Keys of agent.py tools_map. -/
def knownTools : List String :=
  ["positive_tool", "negative_tool", "student_marks_tool", "crisis_tool"]

/-- agent.py ChatbotAgent._select_tool.  The classifier argument carries the
LLM response, none modelling a raised exception, in which case (as well as
for a response outside tools_map) the keyword fallback is used and nothing
propagates to the caller. -/
def selectTool (classifierOutput : Option String) (message : String) : String :=
  match classifierOutput with
  | some response =>
      let toolName := pyLower (pyStrip response)
      if knownTools.contains toolName then toolName
      else keywordMatch message
  | none => keywordMatch message

/-- Student-name list hard-coded in ChatbotAgent._execute_tool. -/
def agentStudentNames : List String := ["john", "sarah", "mike", "bob"]

/-- agent.py ChatbotAgent._execute_tool.  The Lean tool bodies are total,
so its except branch (apology on a tool exception) cannot fire and is not
modelled. -/
def executeTool (toolName message : String) : String :=
  if knownTools.contains toolName then
    if toolName == "student_marks_tool" then
      match agentStudentNames.find? (fun n => strContains (pyLower message) n) with
      | some n => studentMarksTool n
      | none => "Which student? Available: John, Sarah, Mike, Bob"
    else if toolName == "positive_tool" then positiveTool message
    else if toolName == "negative_tool" then negativeTool message
    else crisisTool message
  else "I\x27m not sure how to help with that."

/-! ## memory.py data model -/

/-- One LangChain message of the ConversationBufferMemory list. -/
inductive ChatMessage where
  | human (content : String)
  | ai (content : String)
deriving DecidableEq, Repr

/-- One session dict of memory.py SessionManager.sessions: the LangChain
buffer (messages), the tools_used counter dict, the tools_history list and
the lifecycle timestamps. -/
structure Session where
  messages : List ChatMessage
  toolsUsed : List (String × Nat)
  toolsHistory : List String
  createdAt : Nat
  lastActive : Nat
  threadId : String
deriving DecidableEq, Repr

/-- memory.py SessionManager state: the sessions dict. -/
structure SessionManager where
  sessions : List (String × Session)
deriving DecidableEq, Repr

/-- A freshly constructed SessionManager. -/
def emptyManager : SessionManager := ⟨[]⟩

/-- Python dict lookup on an insertion-ordered association list. -/
def dictGet {α : Type} : List (String × α) → String → Option α
  | [], _ => none
  | (k2, v) :: rest, k => if k2 == k then some v else dictGet rest k

/-- Python dict assignment: overwrite in place, or append a new key. -/
def dictSet {α : Type} : List (String × α) → String → α → List (String × α)
  | [], k, v => [(k, v)]
  | (k2, v2) :: rest, k, v =>
      if k2 == k then (k2, v) :: rest else (k2, v2) :: dictSet rest k v

/-- Python `d[tool] = d.get(tool, 0) + 1` on the tools_used dict. -/
def dictIncr : List (String × Nat) → String → List (String × Nat)
  | [], k => [(k, 1)]
  | (k2, v) :: rest, k =>
      if k2 == k then (k2, v + 1) :: rest else (k2, v) :: dictIncr rest k

/-- Sum of the counter values of a tools_used dict. -/
def toolsSum (d : List (String × Nat)) : Nat := (d.map Prod.snd).sum

/-- The session stored for a thread id, if any. -/
def sessionOf (mgr : SessionManager) (tid : String) : Option Session :=
  dictGet mgr.sessions tid

/-- The session dict memory.py builds for a previously unseen thread id. -/
def freshSession (tid : String) (now : Nat) : Session :=
  { messages := [], toolsUsed := [], toolsHistory := [],
    createdAt := now, lastActive := now, threadId := tid }

/-- memory.py SessionManager.get_or_create_session. -/
def getOrCreateSession (mgr : SessionManager) (tid : String) (now : Nat) :
    Session × SessionManager :=
  match sessionOf mgr tid with
  | some s => (s, mgr)
  | none =>
      let s := freshSession tid now
      (s, ⟨dictSet mgr.sessions tid s⟩)

/-- memory.py SessionManager.save_interaction: appends the human and AI
messages to the buffer, bumps the tool counter, appends to tools_history
and refreshes last_active. -/
def saveInteraction (mgr : SessionManager) (tid userMsg botResponse toolName : String)
    (now : Nat) : SessionManager :=
  let r := getOrCreateSession mgr tid now
  let s := r.1
  let s2 : Session :=
    { s with
      messages := s.messages ++ [ChatMessage.human userMsg, ChatMessage.ai botResponse],
      toolsUsed := dictIncr s.toolsUsed toolName,
      toolsHistory := s.toolsHistory ++ [toolName],
      lastActive := now }
  ⟨dictSet r.2.sessions tid s2⟩

/-- Rendering of one buffer message by SessionManager.get_history. -/
def renderMessage : ChatMessage → String
  | ChatMessage.human c => "Human: " ++ c
  | ChatMessage.ai c => "AI: " ++ c

/-- memory.py SessionManager.get_history (auto-creates the session). -/
def getHistory (mgr : SessionManager) (tid : String) (now : Nat) :
    String × SessionManager :=
  let r := getOrCreateSession mgr tid now
  (String.intercalate "\n" (r.1.messages.map renderMessage), r.2)

/-- The stats dict returned by SessionManager.get_stats. -/
structure StatsRecord where
  threadId : String
  messageCount : Nat
  toolsUsed : List (String × Nat)
  createdAt : Nat
  lastActive : Nat
deriving DecidableEq, Repr

/-- memory.py SessionManager.get_stats; message_count is the length of the
LangChain message list (one human plus one AI message per exchange). -/
def getStats (mgr : SessionManager) (tid : String) (now : Nat) :
    StatsRecord × SessionManager :=
  let r := getOrCreateSession mgr tid now
  ({ threadId := tid, messageCount := r.1.messages.length, toolsUsed := r.1.toolsUsed,
     createdAt := r.1.createdAt, lastActive := r.1.lastActive }, r.2)

/-- One conversation entry built by SessionManager.get_detailed_history. -/
structure ConvEntry where
  messageId : Nat
  userQuery : String
  botResponse : String
  toolUsed : String
  sessionId : String
  timestamp : Nat
deriving DecidableEq, Repr

/-- The record returned by SessionManager.get_detailed_history. -/
structure DetailedRecord where
  threadId : String
  sessionId : String
  totalMessages : Nat
  conversation : List ConvEntry
  createdAt : Nat
  lastActive : Nat
deriving DecidableEq, Repr

/-- Python `for msg in messages: if isinstance(msg, HumanMessage):
msg.content; messages.remove(msg); break` — returns the first human
message\x27s content and the list with that element removed in place. -/
def removeFirstHuman : List ChatMessage → Option String × List ChatMessage
  | [] => (none, [])
  | ChatMessage.human c :: rest => (some c, rest)
  | ChatMessage.ai c :: rest =>
      let r := removeFirstHuman rest
      (r.1, ChatMessage.ai c :: r.2)

/-- The analogous destructive scan for the first AI message. -/
def removeFirstAI : List ChatMessage → Option String × List ChatMessage
  | [] => (none, [])
  | ChatMessage.ai c :: rest => (some c, rest)
  | ChatMessage.human c :: rest =>
      let r := removeFirstAI rest
      (r.1, ChatMessage.human c :: r.2)

/-- The while loop of get_detailed_history: one iteration per tools_history
entry, each destructively extracting the first human and first AI message
from the (aliased, live) buffer list; missing sides become empty strings.
Returns the entries together with what is left of the buffer. -/
def detailedLoop (tid : String) (now : Nat) :
    Nat → List String → List ChatMessage → List ConvEntry × List ChatMessage
  | _, [], messages => ([], messages)
  | idx, t :: rest, messages =>
      let r1 := removeFirstHuman messages
      let r2 := removeFirstAI r1.2
      let tail := detailedLoop tid now (idx + 1) rest r2.2
      ({ messageId := idx, userQuery := r1.1.getD "", botResponse := r2.1.getD "",
         toolUsed := t, sessionId := tid, timestamp := now } :: tail.1, tail.2)

/-- memory.py SessionManager.get_detailed_history.  load_memory_variables
returns the live chat_memory.messages list, so the removals of the pairing
loop write through to the stored session; the returned manager carries the
mutated buffer. -/
def getDetailedHistory (mgr : SessionManager) (tid : String) (now : Nat) :
    DetailedRecord × SessionManager :=
  let r := getOrCreateSession mgr tid now
  let s := r.1
  let loop := detailedLoop tid now 1 s.toolsHistory s.messages
  let s2 : Session := { s with messages := loop.2 }
  ({ threadId := tid, sessionId := tid, totalMessages := loop.1.length,
     conversation := loop.1, createdAt := s.createdAt, lastActive := s.lastActive },
   ⟨dictSet r.2.sessions tid s2⟩)

/-- memory.py SessionManager.clear_session. -/
def clearSession (mgr : SessionManager) (tid : String) : Bool × SessionManager :=
  if mgr.sessions.any (fun p => p.1 == tid) then
    (true, ⟨mgr.sessions.filter (fun p => !(p.1 == tid))⟩)
  else (false, mgr)

/-- memory.py SessionManager.list_all_sessions. -/
def listAllSessions (mgr : SessionManager) : List String :=
  mgr.sessions.map Prod.fst

/-- The dict returned by ChatbotAgent.chat. -/
structure ChatResult where
  success : Bool
  response : String
  toolUsed : String
  messageCount : Nat
  threadId : String
deriving DecidableEq, Repr

/-- agent.py ChatbotAgent.chat: reads the history (creating the session),
selects a tool from the classifier output with keyword fallback, executes
it, saves the exchange and reports the stats.  The recent-context string it
assembles is never consumed by tool selection or execution and is omitted;
with the classifier failure absorbed inside selectTool, the surrounding
except branch is unreachable. -/
def chat (mgr : SessionManager) (classifierOutput : Option String)
    (userMessage thread_id : String) (now : Nat) : ChatResult × SessionManager :=
  let ctx := getHistory mgr thread_id now
  let toolName := selectTool classifierOutput userMessage
  let botResponse := executeTool toolName userMessage
  let mgr2 := saveInteraction ctx.2 thread_id userMessage botResponse toolName now
  let st := getStats mgr2 thread_id now
  ({ success := true, response := botResponse, toolUsed := toolName,
     messageCount := st.1.messageCount, threadId := thread_id }, st.2)

/-- Runs a sequence of chat calls on one thread id; each input is the
classifier outcome, the user message and the clock tick of that call. -/
def runChats (mgr : SessionManager) (tid : String) :
    List (Option String × String × Nat) → SessionManager
  | [] => mgr
  | (c, msg, now) :: rest => runChats (chat mgr c msg tid now).2 tid rest

/-- The per-session invariant claimed by the spec, stated on the stored
representation: the buffer holds one human and one AI message per recorded
exchange, and the tool counters sum to the number of exchanges. -/
def sessionInv (s : Session) : Prop :=
  s.messages.length = 2 * s.toolsHistory.length ∧
  toolsSum s.toolsUsed = s.toolsHistory.length

instance (s : Session) : Decidable (sessionInv s) := by
  unfold sessionInv; infer_instance

/-- The invariant holds for every stored session. -/
def mgrInv (mgr : SessionManager) : Prop :=
  ∀ p ∈ mgr.sessions, sessionInv p.2

instance (mgr : SessionManager) : Decidable (mgrInv mgr) := by
  unfold mgrInv; infer_instance

/-- The operations a caller can perform on one thread id, as exposed by
agent.py (chat) and memory.py (the rest). -/
inductive SessionOp where
  | chatOp (classifierOutput : Option String) (msg : String) (now : Nat)
  | saveOp (userMsg botResponse toolName : String) (now : Nat)
  | historyOp (now : Nat)
  | statsOp (now : Nat)
  | detailedOp (now : Nat)
  | clearOp
deriving DecidableEq, Repr

/-- State transition of one operation on one thread id. -/
def applyOp (mgr : SessionManager) (tid : String) : SessionOp → SessionManager
  | SessionOp.chatOp c msg now => (chat mgr c msg tid now).2
  | SessionOp.saveOp u b t now => saveInteraction mgr tid u b t now
  | SessionOp.historyOp now => (getHistory mgr tid now).2
  | SessionOp.statsOp now => (getStats mgr tid now).2
  | SessionOp.detailedOp now => (getDetailedHistory mgr tid now).2
  | SessionOp.clearOp => (clearSession mgr tid).2

/-- Buffer pairs encoded the way save_interaction lays them out: one human
message followed by one AI message per exchange. -/
def messagesOfExchanges : List (String × String) → List ChatMessage
  | [] => []
  | (u, b) :: rest => ChatMessage.human u :: ChatMessage.ai b :: messagesOfExchanges rest

/-- The conversation get_detailed_history is specified to build: exchange i
paired with tools_history entry i, message ids counting up from the given
start; exhausted buffers pad with empty strings. -/
def expectedConv (tid : String) (now : Nat) :
    Nat → List (String × String) → List String → List ConvEntry
  | _, _, [] => []
  | idx, [], t :: ts =>
      { messageId := idx, userQuery := "", botResponse := "", toolUsed := t,
        sessionId := tid, timestamp := now } :: expectedConv tid now (idx + 1) [] ts
  | idx, (u, b) :: exs, t :: ts =>
      { messageId := idx, userQuery := u, botResponse := b, toolUsed := t,
        sessionId := tid, timestamp := now } :: expectedConv tid now (idx + 1) exs ts

/-- Number of individual messages stored in the buffer of a thread (0 when
the thread has no session yet). -/
def msgCount (mgr : SessionManager) (tid : String) : Nat :=
  match sessionOf mgr tid with
  | some s => s.messages.length
  | none => 0

/-- Sum of the tool counters of a thread (0 when the thread has no session
yet). -/
def usedCount (mgr : SessionManager) (tid : String) : Nat :=
  match sessionOf mgr tid with
  | some s => toolsSum s.toolsUsed
  | none => 0

/-- Concrete one-exchange manager used as a test fixture. -/
def sampleMgr : SessionManager :=
  saveInteraction emptyManager "t" "hi" "hello" "positive_tool" 0

/-- The session sampleMgr stores under thread id "t". -/
def sampleSession : Session :=
  { messages := [ChatMessage.human "hi", ChatMessage.ai "hello"],
    toolsUsed := [("positive_tool", 1)], toolsHistory := ["positive_tool"],
    createdAt := 0, lastActive := 0, threadId := "t" }

/-! ## Association-list (Python dict) lemmas -/

theorem dictGet_dictSet_self {α : Type} (l : List (String × α)) (k : String) (v : α) :
    dictGet (dictSet l k v) k = some v := by
  induction l with
  | nil => simp [dictGet, dictSet]
  | cons q rest ih =>
      obtain ⟨qk, qv⟩ := q
      cases hq : qk == k <;> simp [dictGet, dictSet, hq, ih]

theorem mem_dictSet_snd {α : Type} {l : List (String × α)} {k : String} {v : α}
    {p : String × α} (hp : p ∈ dictSet l k v) : p.2 = v ∨ p ∈ l := by
  induction l with
  | nil =>
      simp [dictSet] at hp
      simp [hp]
  | cons q rest ih =>
      obtain ⟨qk, qv⟩ := q
      cases hq : qk == k
      · simp only [dictSet, hq] at hp
        simp only [Bool.false_eq_true, if_false, List.mem_cons] at hp
        rcases hp with hp | hp
        · exact Or.inr (by simp [hp])
        · rcases ih hp with h2 | h2
          · exact Or.inl h2
          · exact Or.inr (List.mem_cons_of_mem _ h2)
      · simp only [dictSet, hq, if_true, List.mem_cons] at hp
        rcases hp with hp | hp
        · exact Or.inl (by simp [hp])
        · exact Or.inr (List.mem_cons_of_mem _ hp)

theorem dictGet_mem {α : Type} {l : List (String × α)} {k : String} {v : α}
    (h : dictGet l k = some v) : ∃ p ∈ l, p.2 = v := by
  induction l with
  | nil => simp [dictGet] at h
  | cons q rest ih =>
      obtain ⟨qk, qv⟩ := q
      cases hq : qk == k
      · simp only [dictGet, hq, Bool.false_eq_true, if_false] at h
        obtain ⟨p, hp, hpv⟩ := ih h
        exact ⟨p, List.mem_cons_of_mem _ hp, hpv⟩
      · simp only [dictGet, hq, if_true, Option.some.injEq] at h
        exact ⟨(qk, qv), List.mem_cons_self _ _, h⟩

theorem toolsSum_dictIncr (d : List (String × Nat)) (k : String) :
    toolsSum (dictIncr d k) = toolsSum d + 1 := by
  induction d with
  | nil => simp [dictIncr, toolsSum]
  | cons q rest ih =>
      obtain ⟨qk, qv⟩ := q
      cases hq : qk == k
      · simp only [dictIncr, hq, Bool.false_eq_true, if_false]
        simp only [toolsSum, List.map_cons, List.sum_cons] at ih ⊢
        omega
      · simp only [dictIncr, hq, if_true]
        simp only [toolsSum, List.map_cons, List.sum_cons]
        omega

theorem dictGet_none_any {α : Type} {l : List (String × α)} {k : String}
    (h : dictGet l k = none) : l.any (fun p => p.1 == k) = false := by
  induction l with
  | nil => simp
  | cons q rest ih =>
      obtain ⟨qk, qv⟩ := q
      cases hq : qk == k
      · simp only [dictGet, hq, Bool.false_eq_true, if_false] at h
        simp [hq, ih h]
      · simp [dictGet, hq] at h

theorem dictGet_some_any {α : Type} {l : List (String × α)} {k : String} {v : α}
    (h : dictGet l k = some v) : l.any (fun p => p.1 == k) = true := by
  induction l with
  | nil => simp [dictGet] at h
  | cons q rest ih =>
      obtain ⟨qk, qv⟩ := q
      cases hq : qk == k
      · simp only [dictGet, hq, Bool.false_eq_true, if_false] at h
        simp [hq, ih h]
      · simp [hq]

theorem dictGet_filter_ne {α : Type} (l : List (String × α)) (k : String) :
    dictGet (l.filter (fun p => !(p.1 == k))) k = none := by
  induction l with
  | nil => simp [dictGet]
  | cons q rest ih =>
      obtain ⟨qk, qv⟩ := q
      cases hq : qk == k
      · simp [List.filter, hq, dictGet, ih]
      · simp [List.filter, hq, ih]

theorem not_mem_map_filter {α : Type} (l : List (String × α)) (k : String) :
    k ∉ (l.filter (fun p => !(p.1 == k))).map Prod.fst := by
  intro hmem
  obtain ⟨p, hp, hpk⟩ := List.mem_map.mp hmem
  have := (List.mem_filter.mp hp).2
  rw [hpk] at this
  simp at this

/-! ## Session-level helper lemmas -/

theorem getHistory_snd (mgr : SessionManager) (tid : String) (now : Nat) :
    (getHistory mgr tid now).2 = (getOrCreateSession mgr tid now).2 := rfl

theorem getStats_snd (mgr : SessionManager) (tid : String) (now : Nat) :
    (getStats mgr tid now).2 = (getOrCreateSession mgr tid now).2 := rfl

theorem chat_toolUsed (mgr : SessionManager) (c : Option String) (msg tid : String)
    (now : Nat) : ((chat mgr c msg tid now).1).toolUsed = selectTool c msg := rfl

theorem chat_snd (mgr : SessionManager) (c : Option String) (msg tid : String)
    (now : Nat) :
    (chat mgr c msg tid now).2 =
      (getStats (saveInteraction (getHistory mgr tid now).2 tid msg
        (executeTool (selectTool c msg) msg) (selectTool c msg) now) tid now).2 := rfl

theorem sessionOf_getOrCreate (mgr : SessionManager) (tid : String) (now : Nat) :
    sessionOf (getOrCreateSession mgr tid now).2 tid =
      some (getOrCreateSession mgr tid now).1 := by
  unfold getOrCreateSession
  cases h : sessionOf mgr tid with
  | some s => simp [h]
  | none => simp [h, sessionOf, dictGet_dictSet_self]

theorem getOrCreate_fst_len (mgr : SessionManager) (tid : String) (now : Nat) :
    ((getOrCreateSession mgr tid now).1).messages.length = msgCount mgr tid := by
  cases h : sessionOf mgr tid <;> simp [getOrCreateSession, h, msgCount, freshSession]

theorem getOrCreate_fst_used (mgr : SessionManager) (tid : String) (now : Nat) :
    toolsSum ((getOrCreateSession mgr tid now).1).toolsUsed = usedCount mgr tid := by
  cases h : sessionOf mgr tid <;>
    simp [getOrCreateSession, h, usedCount, freshSession, toolsSum]

theorem msgCount_getOrCreate (mgr : SessionManager) (tid : String) (now : Nat) :
    msgCount (getOrCreateSession mgr tid now).2 tid = msgCount mgr tid := by
  simp only [msgCount, sessionOf_getOrCreate]
  exact getOrCreate_fst_len mgr tid now

theorem usedCount_getOrCreate (mgr : SessionManager) (tid : String) (now : Nat) :
    usedCount (getOrCreateSession mgr tid now).2 tid = usedCount mgr tid := by
  simp only [usedCount, sessionOf_getOrCreate]
  exact getOrCreate_fst_used mgr tid now

theorem sessionOf_save (mgr : SessionManager) (tid u b t : String) (now : Nat) :
    sessionOf (saveInteraction mgr tid u b t now) tid =
      some { (getOrCreateSession mgr tid now).1 with
             messages := ((getOrCreateSession mgr tid now).1).messages ++
               [ChatMessage.human u, ChatMessage.ai b],
             toolsUsed := dictIncr ((getOrCreateSession mgr tid now).1).toolsUsed t,
             toolsHistory := ((getOrCreateSession mgr tid now).1).toolsHistory ++ [t],
             lastActive := now } := by
  simp only [saveInteraction, sessionOf]
  exact dictGet_dictSet_self _ _ _

theorem msgCount_save (mgr : SessionManager) (tid u b t : String) (now : Nat) :
    msgCount (saveInteraction mgr tid u b t now) tid = msgCount mgr tid + 2 := by
  have h1 : msgCount (saveInteraction mgr tid u b t now) tid =
      ((getOrCreateSession mgr tid now).1).messages.length + 2 := by
    simp [msgCount, sessionOf_save]
  rw [h1, getOrCreate_fst_len]

theorem usedCount_save (mgr : SessionManager) (tid u b t : String) (now : Nat) :
    usedCount (saveInteraction mgr tid u b t now) tid = usedCount mgr tid + 1 := by
  have h1 : usedCount (saveInteraction mgr tid u b t now) tid =
      toolsSum ((getOrCreateSession mgr tid now).1).toolsUsed + 1 := by
    simp [usedCount, sessionOf_save, toolsSum_dictIncr]
  rw [h1, getOrCreate_fst_used]

theorem getStats_messageCount (mgr : SessionManager) (tid : String) (now : Nat) :
    ((getStats mgr tid now).1).messageCount = msgCount mgr tid :=
  getOrCreate_fst_len mgr tid now

theorem getStats_toolsSum (mgr : SessionManager) (tid : String) (now : Nat) :
    toolsSum ((getStats mgr tid now).1).toolsUsed = usedCount mgr tid :=
  getOrCreate_fst_used mgr tid now

theorem msgCount_chat (mgr : SessionManager) (c : Option String) (msg tid : String)
    (now : Nat) : msgCount (chat mgr c msg tid now).2 tid = msgCount mgr tid + 2 := by
  rw [chat_snd, getStats_snd, msgCount_getOrCreate, msgCount_save, getHistory_snd,
    msgCount_getOrCreate]

theorem usedCount_chat (mgr : SessionManager) (c : Option String) (msg tid : String)
    (now : Nat) : usedCount (chat mgr c msg tid now).2 tid = usedCount mgr tid + 1 := by
  rw [chat_snd, getStats_snd, usedCount_getOrCreate, usedCount_save, getHistory_snd,
    usedCount_getOrCreate]

theorem msgCount_runChats (tid : String) (inputs : List (Option String × String × Nat)) :
    ∀ mgr : SessionManager,
      msgCount (runChats mgr tid inputs) tid = msgCount mgr tid + 2 * inputs.length := by
  induction inputs with
  | nil => intro mgr; simp [runChats]
  | cons x rest ih =>
      intro mgr
      obtain ⟨c, msg, now⟩ := x
      simp only [runChats]
      rw [ih, msgCount_chat, List.length_cons]
      ring

theorem usedCount_runChats (tid : String) (inputs : List (Option String × String × Nat)) :
    ∀ mgr : SessionManager,
      usedCount (runChats mgr tid inputs) tid = usedCount mgr tid + inputs.length := by
  induction inputs with
  | nil => intro mgr; simp [runChats]
  | cons x rest ih =>
      intro mgr
      obtain ⟨c, msg, now⟩ := x
      simp only [runChats]
      rw [ih, usedCount_chat, List.length_cons]
      ring

/-! ## Invariant helper lemmas -/

theorem sessionInv_fresh (tid : String) (now : Nat) : sessionInv (freshSession tid now) := by
  simp [sessionInv, freshSession, toolsSum]

theorem sessionInv_getOrCreate_fst (mgr : SessionManager) (tid : String) (now : Nat)
    (hinv : mgrInv mgr) : sessionInv ((getOrCreateSession mgr tid now).1) := by
  cases h : sessionOf mgr tid with
  | some s =>
      simp only [getOrCreateSession, h]
      obtain ⟨p, hp, hpv⟩ := dictGet_mem h
      exact hpv ▸ hinv p hp
  | none =>
      simp only [getOrCreateSession, h]
      exact sessionInv_fresh tid now

theorem mgrInv_dictSet (l : List (String × Session)) (k : String) (v : Session)
    (hl : ∀ p ∈ l, sessionInv p.2) (hv : sessionInv v) :
    ∀ p ∈ dictSet l k v, sessionInv p.2 := by
  intro p hp
  rcases mem_dictSet_snd hp with h | h
  · rw [h]; exact hv
  · exact hl p h

theorem mgrInv_getOrCreate (mgr : SessionManager) (tid : String) (now : Nat)
    (hinv : mgrInv mgr) : mgrInv (getOrCreateSession mgr tid now).2 := by
  cases h : sessionOf mgr tid with
  | some s => simp only [getOrCreateSession, h]; exact hinv
  | none =>
      simp only [getOrCreateSession, h]
      exact mgrInv_dictSet _ _ _ hinv (sessionInv_fresh tid now)

theorem mgrInv_save (mgr : SessionManager) (tid u b t : String) (now : Nat)
    (hinv : mgrInv mgr) : mgrInv (saveInteraction mgr tid u b t now) := by
  obtain ⟨hlen, hsum⟩ := sessionInv_getOrCreate_fst mgr tid now hinv
  have h2 := mgrInv_getOrCreate mgr tid now hinv
  intro p hp
  simp only [saveInteraction] at hp
  rcases mem_dictSet_snd hp with h | h
  · rw [h]
    constructor
    · simp only [List.length_append, List.length_cons, List.length_nil]
      omega
    · rw [toolsSum_dictIncr]
      simp only [List.length_append, List.length_cons, List.length_nil]
      omega
  · exact h2 p h

theorem mgrInv_clear (mgr : SessionManager) (tid : String) (hinv : mgrInv mgr) :
    mgrInv (clearSession mgr tid).2 := by
  unfold clearSession
  cases h : mgr.sessions.any (fun p => p.1 == tid)
  · simp only [h, Bool.false_eq_true, if_false]
    exact hinv
  · simp only [h, if_true]
    intro p hp
    exact hinv p (List.mem_of_mem_filter hp)

theorem mgrInv_chat (mgr : SessionManager) (c : Option String) (msg tid : String)
    (now : Nat) (hinv : mgrInv mgr) : mgrInv (chat mgr c msg tid now).2 := by
  rw [chat_snd, getStats_snd]
  refine mgrInv_getOrCreate _ tid now (mgrInv_save _ tid _ _ _ now ?_)
  rw [getHistory_snd]
  exact mgrInv_getOrCreate mgr tid now hinv

/-! ## Router helper lemmas -/

theorem keywordMatch_crisis (message : String)
    (h : hasAnyMarker message crisisMarkers = true) :
    keywordMatch message = "crisis_tool" := by
  simp only [hasAnyMarker] at h
  simp [keywordMatch, h]

theorem keywordMatch_mem (message : String) : keywordMatch message ∈ knownTools := by
  simp only [keywordMatch]
  split
  · simp [knownTools]
  · split
    · simp [knownTools]
    · split
      · simp [knownTools]
      · split <;> simp [knownTools]

theorem keywordMatch_ne_unknown (message : String) : keywordMatch message ≠ "unknown" := by
  intro h
  have hm := keywordMatch_mem message
  rw [h] at hm
  exact absurd hm (by decide)

/-! ## Substring helper lemmas -/

theorem isPre_refl : ∀ l : List Char, isPre l l = true
  | [] => rfl
  | c :: rest => by simp [isPre, isPre_refl rest]

theorem strContains_self (s : String) : strContains s s = true := by
  unfold strContains
  rcases h : s.data with _ | ⟨c, rest⟩
  · rfl
  · simp [containsSub, isPre_refl]

theorem notFoundMsg_head (nm : String) : (notFoundMsg nm).data.head? = some 'S' := rfl

theorem academicReport_head (name : String) (subjects : List (String × Nat))
    (gpa : String) : (academicReport name subjects gpa).data.head? = some '\n' := rfl

theorem academicReport_ne_notFound (name : String) (subjects : List (String × Nat))
    (gpa arg : String) : academicReport name subjects gpa ≠ notFoundMsg arg := by
  intro h
  have h2 : (academicReport name subjects gpa).data.head? = (notFoundMsg arg).data.head? := by
    rw [h]
  rw [academicReport_head, notFoundMsg_head] at h2
  exact (by decide : ¬ (some '\n' = some 'S')) h2

/-! ## Detailed-history pairing lemmas -/

theorem detailedLoop_length (tid : String) (now : Nat) :
    ∀ (ts : List String) (idx : Nat) (messages : List ChatMessage),
      (detailedLoop tid now idx ts messages).1.length = ts.length := by
  intro ts
  induction ts with
  | nil => intro idx messages; simp [detailedLoop]
  | cons t rest ih => intro idx messages; simp [detailedLoop, ih]

theorem messagesOfExchanges_length (exs : List (String × String)) :
    (messagesOfExchanges exs).length = 2 * exs.length := by
  induction exs with
  | nil => simp [messagesOfExchanges]
  | cons e rest ih =>
      obtain ⟨u, b⟩ := e
      simp [messagesOfExchanges, ih]
      ring

theorem detailedLoop_aligned (tid : String) (now : Nat) :
    ∀ (ts : List String) (exs : List (String × String)) (idx : Nat),
      ts.length = exs.length →
      detailedLoop tid now idx ts (messagesOfExchanges exs) =
        (expectedConv tid now idx exs ts, []) := by
  intro ts
  induction ts with
  | nil =>
      intro exs idx h
      cases exs with
      | nil => simp [detailedLoop, expectedConv, messagesOfExchanges]
      | cons e rest => simp at h
  | cons t rest ih =>
      intro exs idx h
      cases exs with
      | nil => simp at h
      | cons e exs2 =>
          obtain ⟨u, b⟩ := e
          simp only [messagesOfExchanges, detailedLoop, removeFirstHuman, removeFirstAI]
          rw [ih exs2 (idx + 1) (by simpa using h)]
          simp [expectedConv]

/-! ## Claim C1 -/

/-- C1 fails on the code: for the crisis message "I want to die", a
classifier that returns the valid tool name "positive_tool" is trusted by
_select_tool, so chat reports tool_used = "positive_tool", not
"crisis_tool". -/
theorem C1_classifier_overrides_crisis :
    hasAnyMarker "I want to die" crisisMarkers = true ∧
    "positive_tool" ∈ knownTools ∧
    ((chat emptyManager (some "positive_tool") "I want to die" "default" 0).1).toolUsed =
      "positive_tool" ∧
    ((chat emptyManager (some "positive_tool") "I want to die" "default" 0).1).toolUsed ≠
      "crisis_tool" :=
  ⟨by decide, by decide, by decide, by decide⟩

/-- C1 (amended): for every message containing a crisis marker, chat
reports tool_used = "crisis_tool" whenever the classifier raises or returns
output whose stripped, lowercased form is not a known tool name; a valid
non-crisis classifier answer is trusted and suppresses the crisis keyword
route. -/
theorem C1_crisis_fallback (mgr : SessionManager) (c : Option String)
    (message tid : String) (now : Nat)
    (hm : hasAnyMarker message crisisMarkers = true)
    (hc : ∀ r, c = some r → knownTools.contains (pyLower (pyStrip r)) = false) :
    ((chat mgr c message tid now).1).toolUsed = "crisis_tool" := by
  rw [chat_toolUsed]
  cases c with
  | none =>
      simp only [selectTool]
      exact keywordMatch_crisis message hm
  | some r =>
      have hr := hc r rfl
      simp only [selectTool, hr, Bool.false_eq_true, if_false]
      exact keywordMatch_crisis message hm

/-- C1 witness: a concrete crisis message with a raising classifier routes
to the crisis tool. -/
theorem C1_crisis_fallback_witness :
    hasAnyMarker "I want to die" crisisMarkers = true ∧
    ((chat emptyManager none "I want to die" "default" 0).1).toolUsed = "crisis_tool" :=
  ⟨by decide,
   C1_crisis_fallback emptyManager none "I want to die" "default" 0 (by decide)
     (fun r h => nomatch h)⟩

/-! ## Claim C2 -/

/-- C2 is violated by the code: get_detailed_history destructively removes
each paired message from the live buffer (load_memory_variables hands back
chat_memory.messages itself and the loop calls messages.remove), so after
one call on a one-exchange session the buffer is empty, and a second call
on the unmodified session returns a different conversation record whose
entries carry empty strings. -/
theorem C2_destructive_read :
    (sessionOf sampleMgr "t").map Session.messages =
      some [ChatMessage.human "hi", ChatMessage.ai "hello"] ∧
    (sessionOf (getDetailedHistory sampleMgr "t" 1).2 "t").map Session.messages =
      some [] ∧
    ((getDetailedHistory sampleMgr "t" 1).1).conversation.map
      (fun e => (e.userQuery, e.botResponse)) = [("hi", "hello")] ∧
    ((getDetailedHistory (getDetailedHistory sampleMgr "t" 1).2 "t" 1).1).conversation.map
      (fun e => (e.userQuery, e.botResponse)) = [("", "")] :=
  ⟨by decide, by decide, by decide, by decide⟩

/-! ## Claim C3 -/

/-- C3 fails on the code: after a single chat call on a fresh thread,
get_stats reports message_count = 2, not 1, because the LangChain buffer
stores one human and one AI message per exchange and message_count is the
raw message-list length. -/
theorem C3_single_chat_message_count :
    ((getStats (chat emptyManager none "hi there" "default" 0).2 "default" 0).1).messageCount
      = 2 ∧
    ¬ ((getStats (chat emptyManager none "hi there" "default" 0).2 "default" 0).1).messageCount
      = 1 :=
  ⟨by decide, by decide⟩

/-- C3 (amended): for every sequence of N chat calls on a fresh thread id,
stats(thread_id).message_count = 2 * N (message_count counts individual
human/AI messages, two per exchange) and the tools_used counters still sum
to N. -/
theorem C3_chat_counts (mgr : SessionManager) (tid : String)
    (inputs : List (Option String × String × Nat)) (now : Nat)
    (h : sessionOf mgr tid = none) :
    ((getStats (runChats mgr tid inputs) tid now).1).messageCount = 2 * inputs.length ∧
    toolsSum ((getStats (runChats mgr tid inputs) tid now).1).toolsUsed = inputs.length := by
  have h0 : msgCount mgr tid = 0 := by simp [msgCount, h]
  have h1 : usedCount mgr tid = 0 := by simp [usedCount, h]
  constructor
  · rw [getStats_messageCount, msgCount_runChats, h0]
    omega
  · rw [getStats_toolsSum, usedCount_runChats, h1]
    omega

/-- C3 witness: two concrete chat calls on a fresh thread yield
message_count 4 and tool counters summing to 2. -/
theorem C3_chat_counts_witness :
    sessionOf emptyManager "d" = none ∧
    ((getStats (runChats emptyManager "d" [(none, "hi there", 0), (none, "I am sad", 1)])
        "d" 2).1).messageCount = 2 * 2 ∧
    toolsSum ((getStats (runChats emptyManager "d"
        [(none, "hi there", 0), (none, "I am sad", 1)]) "d" 2).1).toolsUsed = 2 :=
  ⟨rfl,
   (C3_chat_counts emptyManager "d" [(none, "hi there", 0), (none, "I am sad", 1)] 2 rfl).1,
   (C3_chat_counts emptyManager "d" [(none, "hi there", 0), (none, "I am sad", 1)] 2 rfl).2⟩

/-! ## Claim C4 -/

/-- C4 fails on the code: the invariants hold after save_interaction, but
one get_detailed_history call on that session empties the buffer while
leaving tools_history intact, so the length invariant is broken. -/
theorem C4_detailed_breaks_invariant :
    mgrInv sampleMgr ∧
    ¬ mgrInv (applyOp sampleMgr "t" (SessionOp.detailedOp 1)) :=
  ⟨by decide, by decide⟩

/-- C4 (amended): every operation except get_detailed_history (chat,
save_interaction, get_history, get_stats, clear_session) preserves the
invariants that each stored buffer holds one human and one AI message per
recorded exchange and that the tool counters sum to the number of
exchanges; get_detailed_history destroys them by draining the buffer. -/
theorem C4_invariant_preserved (mgr : SessionManager) (tid : String) (op : SessionOp)
    (hinv : mgrInv mgr) (hop : ∀ now, op ≠ SessionOp.detailedOp now) :
    mgrInv (applyOp mgr tid op) := by
  cases op with
  | chatOp c msg now => exact mgrInv_chat mgr c msg tid now hinv
  | saveOp u b t now => exact mgrInv_save mgr tid u b t now hinv
  | historyOp now =>
      simp only [applyOp]
      rw [getHistory_snd]
      exact mgrInv_getOrCreate mgr tid now hinv
  | statsOp now =>
      simp only [applyOp]
      rw [getStats_snd]
      exact mgrInv_getOrCreate mgr tid now hinv
  | detailedOp now => exact absurd rfl (hop now)
  | clearOp => exact mgrInv_clear mgr tid hinv

/-- C4 witness: the empty store satisfies the invariants and still does
after a concrete save_interaction. -/
theorem C4_invariant_preserved_witness :
    mgrInv emptyManager ∧
    mgrInv (applyOp emptyManager "t" (SessionOp.saveOp "hi" "hello" "positive_tool" 0)) :=
  ⟨by decide,
   C4_invariant_preserved emptyManager "t" (SessionOp.saveOp "hi" "hello" "positive_tool" 0)
     (by decide) (fun now h => SessionOp.noConfusion h)⟩

/-! ## Claim C5 -/

/-- C5 fails on the code: on a one-exchange session, detailed_history has
one conversation entry while stats reports message_count 2; and after the
destructive first call leaves zero buffered pairs against one tools_history
entry, a second call still produces one (empty-padded) entry instead of
truncating to the shorter length zero. -/
theorem C5_length_mismatch :
    ((getDetailedHistory sampleMgr "t" 1).1).conversation.length = 1 ∧
    ((getStats sampleMgr "t" 1).1).messageCount = 2 ∧
    (sessionOf (getDetailedHistory sampleMgr "t" 1).2 "t").map
      (fun s => s.messages.length) = some 0 ∧
    ((getDetailedHistory (getDetailedHistory sampleMgr "t" 1).2 "t" 1).1).conversation.length
      = 1 :=
  ⟨by decide, by decide, by decide, by decide⟩

/-- C5 (amended): for a session whose buffer holds exactly the exchanges
recorded in tools_history, detailed_history pairs exchange i with
tools_history[i] in order with message_id = i + 1 (the expectedConv
shape), produces exactly len(tools_history) entries, and twice that length
equals stats.message_count, which counts individual human/AI messages. -/
theorem C5_aligned_pairing (mgr : SessionManager) (tid : String) (now : Nat)
    (s : Session) (exs : List (String × String))
    (hs : sessionOf mgr tid = some s)
    (hmsg : s.messages = messagesOfExchanges exs)
    (hlen : s.toolsHistory.length = exs.length) :
    ((getDetailedHistory mgr tid now).1).conversation =
      expectedConv tid now 1 exs s.toolsHistory ∧
    ((getDetailedHistory mgr tid now).1).conversation.length = s.toolsHistory.length ∧
    2 * ((getDetailedHistory mgr tid now).1).conversation.length =
      ((getStats mgr tid now).1).messageCount := by
  have hgoc : getOrCreateSession mgr tid now = (s, mgr) := by
    simp [getOrCreateSession, hs]
  have h1 : ((getDetailedHistory mgr tid now).1).conversation =
      (detailedLoop tid now 1 s.toolsHistory s.messages).1 := by
    show (detailedLoop tid now 1 ((getOrCreateSession mgr tid now).1).toolsHistory
      ((getOrCreateSession mgr tid now).1).messages).1 = _
    rw [hgoc]
  have h2 : ((getStats mgr tid now).1).messageCount = s.messages.length := by
    show ((getOrCreateSession mgr tid now).1).messages.length = _
    rw [hgoc]
  refine ⟨?_, ?_, ?_⟩
  · rw [h1, hmsg, detailedLoop_aligned tid now s.toolsHistory exs 1 hlen]
  · rw [h1, detailedLoop_length]
  · rw [h1, detailedLoop_length, h2, hmsg, messagesOfExchanges_length, hlen]

/-- C5 witness: the aligned pairing evaluated on the concrete one-exchange
fixture. -/
theorem C5_aligned_pairing_witness :
    sessionOf sampleMgr "t" = some sampleSession ∧
    sampleSession.messages = messagesOfExchanges [("hi", "hello")] ∧
    sampleSession.toolsHistory.length = [("hi", "hello")].length ∧
    ((getDetailedHistory sampleMgr "t" 3).1).conversation =
      expectedConv "t" 3 1 [("hi", "hello")] sampleSession.toolsHistory :=
  ⟨by decide, by decide, by decide,
   (C5_aligned_pairing sampleMgr "t" 3 sampleSession [("hi", "hello")]
     (by decide) (by decide) (by decide)).1⟩

/-! ## Claim C6 -/

/-- C6: the keyword router is a total function matching case-insensitive
substrings in fixed priority order — crisis markers first, then academic
markers (which include the known student names), then negative-sentiment
words, then positive-sentiment words — returning the positive tool for
every unmatched message (never "unknown"); a message containing a crisis
marker routes to crisis_tool no matter what else it contains. -/
theorem C6_keyword_router (message : String) :
    (hasAnyMarker message crisisMarkers = true →
      keywordMatch message = "crisis_tool") ∧
    (hasAnyMarker message crisisMarkers = false →
      hasAnyMarker message academicMarkers = true →
      keywordMatch message = "student_marks_tool") ∧
    (hasAnyMarker message crisisMarkers = false →
      hasAnyMarker message academicMarkers = false →
      hasAnyMarker message negativeWords = true →
      keywordMatch message = "negative_tool") ∧
    (hasAnyMarker message crisisMarkers = false →
      hasAnyMarker message academicMarkers = false →
      hasAnyMarker message negativeWords = false →
      keywordMatch message = "positive_tool") ∧
    keywordMatch message ∈ knownTools ∧
    keywordMatch message ≠ "unknown" := by
  refine ⟨?_, ?_, ?_, ?_, keywordMatch_mem message, keywordMatch_ne_unknown message⟩
  · exact keywordMatch_crisis message
  · intro h1 h2
    simp only [hasAnyMarker] at h1 h2
    simp [keywordMatch, h1, h2]
  · intro h1 h2 h3
    simp only [hasAnyMarker] at h1 h2 h3
    simp [keywordMatch, h1, h2, h3]
  · intro h1 h2 h3
    simp only [hasAnyMarker] at h1 h2 h3
    cases h4 : positiveWords.any (fun w => strContains (pyLower message) w) <;>
      simp [keywordMatch, h1, h2, h3, h4]

/-- C6 witness: a message holding a crisis marker together with an academic
and a negative marker still routes to the crisis tool. -/
theorem C6_keyword_router_witness :
    hasAnyMarker "I want to die and my grades are awful" crisisMarkers = true ∧
    keywordMatch "I want to die and my grades are awful" = "crisis_tool" :=
  ⟨by decide,
   (C6_keyword_router "I want to die and my grades are awful").1 (by decide)⟩

/-! ## Claim C7 -/

/-- C7: _select_tool returns the classifier output stripped and lowercased
exactly when that normalized form is a known tool name; in every other
case — an unknown name or a raised classifier exception — it returns the
keyword router result, and nothing propagates to the caller. -/
theorem C7_selector_contract (c : Option String) (message : String) :
    (∀ r, c = some r → knownTools.contains (pyLower (pyStrip r)) = true →
      selectTool c message = pyLower (pyStrip r)) ∧
    (∀ r, c = some r → knownTools.contains (pyLower (pyStrip r)) = false →
      selectTool c message = keywordMatch message) ∧
    (c = none → selectTool c message = keywordMatch message) := by
  refine ⟨?_, ?_, ?_⟩
  · intro r hr h
    subst hr
    have hm : pyLower (pyStrip r) ∈ knownTools := by simpa using h
    simp [selectTool, hm]
  · intro r hr h
    subst hr
    have hm : pyLower (pyStrip r) ∉ knownTools := by simpa using h
    simp [selectTool, hm]
  · intro h
    subst h
    simp [selectTool]

/-- C7 witness: a valid classifier answer is normalized and returned, an
invalid one and a raised exception both fall back to the keyword router. -/
theorem C7_selector_contract_witness :
    knownTools.contains (pyLower (pyStrip "  CRISIS_TOOL  ")) = true ∧
    selectTool (some "  CRISIS_TOOL  ") "hello" = pyLower (pyStrip "  CRISIS_TOOL  ") ∧
    knownTools.contains (pyLower (pyStrip "banana")) = false ∧
    selectTool (some "banana") "hello" = keywordMatch "hello" ∧
    selectTool none "hello" = keywordMatch "hello" :=
  ⟨by decide,
   (C7_selector_contract (some "  CRISIS_TOOL  ") "hello").1 "  CRISIS_TOOL  " rfl (by decide),
   by decide,
   (C7_selector_contract (some "banana") "hello").2.1 "banana" rfl (by decide),
   (C7_selector_contract none "hello").2.2 rfl⟩

/-! ## Claim C8 -/

/-- C8: clear_session on an unknown thread id returns false and leaves the
store unchanged; on an existing session it returns true, the id disappears
from list_sessions, and a later get_stats call on the same id auto-creates
a fresh session reporting message_count 0 with created_at equal to the
clock of that call. -/
theorem C8_clear_session (mgr : SessionManager) (tid : String) (now2 : Nat) :
    (sessionOf mgr tid = none → clearSession mgr tid = (false, mgr)) ∧
    (∀ s, sessionOf mgr tid = some s →
      (clearSession mgr tid).1 = true ∧
      tid ∉ listAllSessions (clearSession mgr tid).2 ∧
      ((getStats (clearSession mgr tid).2 tid now2).1).messageCount = 0 ∧
      ((getStats (clearSession mgr tid).2 tid now2).1).createdAt = now2) := by
  constructor
  · intro h
    have hany := dictGet_none_any h
    simp [clearSession, hany]
  · intro s hs
    have hany := dictGet_some_any hs
    have hcleared : (clearSession mgr tid).2 =
        ⟨mgr.sessions.filter (fun p => !(p.1 == tid))⟩ := by
      simp [clearSession, hany]
    have hnone : sessionOf (clearSession mgr tid).2 tid = none := by
      rw [hcleared]
      exact dictGet_filter_ne _ _
    refine ⟨by simp [clearSession, hany], ?_, ?_, ?_⟩
    · rw [hcleared]
      exact not_mem_map_filter _ _
    · simp [getStats, getOrCreateSession, hnone, freshSession]
    · simp [getStats, getOrCreateSession, hnone, freshSession]

/-- C8 witness: clearing a never-created id returns false unchanged;
clearing the one-exchange fixture returns true, removes the id, and fresh
stats report zero messages with the new clock value as created_at. -/
theorem C8_clear_session_witness :
    sessionOf emptyManager "x" = none ∧
    clearSession emptyManager "x" = (false, emptyManager) ∧
    sessionOf sampleMgr "t" = some sampleSession ∧
    (clearSession sampleMgr "t").1 = true ∧
    "t" ∉ listAllSessions (clearSession sampleMgr "t").2 ∧
    ((getStats (clearSession sampleMgr "t").2 "t" 5).1).messageCount = 0 ∧
    ((getStats (clearSession sampleMgr "t").2 "t" 5).1).createdAt = 5 :=
  ⟨rfl,
   (C8_clear_session emptyManager "x" 5).1 rfl,
   by decide,
   ((C8_clear_session sampleMgr "t" 5).2 sampleSession (by decide)).1,
   ((C8_clear_session sampleMgr "t" 5).2 sampleSession (by decide)).2.1,
   ((C8_clear_session sampleMgr "t" 5).2 sampleSession (by decide)).2.2.1,
   ((C8_clear_session sampleMgr "t" 5).2 sampleSession (by decide)).2.2.2⟩

/-! ## Claim C9 -/

/-- C9: get_history on a thread id that never had a session returns the
empty string instead of failing, auto-creating an empty session through
get_or_create_session. -/
theorem C9_fresh_history (mgr : SessionManager) (tid : String) (now : Nat)
    (h : sessionOf mgr tid = none) :
    (getHistory mgr tid now).1 = "" ∧
    sessionOf (getHistory mgr tid now).2 tid = some (freshSession tid now) := by
  have hgoc : getOrCreateSession mgr tid now =
      (freshSession tid now, ⟨dictSet mgr.sessions tid (freshSession tid now)⟩) := by
    simp [getOrCreateSession, h]
  constructor
  · show String.intercalate "\n"
      (((getOrCreateSession mgr tid now).1).messages.map renderMessage) = ""
    rw [hgoc]
    rfl
  · rw [getHistory_snd, sessionOf_getOrCreate, hgoc]

/-- C9 witness: reading a never-touched id on the empty store. -/
theorem C9_fresh_history_witness :
    sessionOf emptyManager "fresh" = none ∧
    (getHistory emptyManager "fresh" 7).1 = "" ∧
    sessionOf (getHistory emptyManager "fresh" 7).2 "fresh" = some (freshSession "fresh" 7) :=
  ⟨rfl,
   (C9_fresh_history emptyManager "fresh" 7 rfl).1,
   (C9_fresh_history emptyManager "fresh" 7 rfl).2⟩

/-! ## Claim C10 -/

/-- C10: student_marks_tool matches by substring of the lowercased,
stripped argument: whenever the key scan finds a student name it returns
that student\x27s report (never the not-found message), and the not-found
message is returned exactly when no known name occurs as a substring. -/
theorem C10_student_substring (s : String) :
    (∀ k, studentKeys.find? (fun k2 => strContains (pyStrip (pyLower s)) k2) = some k →
      strContains (pyStrip (pyLower s)) k = true ∧
      studentMarksTool s = reportForKey k ∧
      studentMarksTool s ≠ notFoundMsg s) ∧
    (studentKeys.find? (fun k2 => strContains (pyStrip (pyLower s)) k2) = none ↔
      studentMarksTool s = notFoundMsg s) := by
  have hsome : ∀ k,
      studentKeys.find? (fun k2 => strContains (pyStrip (pyLower s)) k2) = some k →
      strContains (pyStrip (pyLower s)) k = true ∧
      studentMarksTool s = reportForKey k ∧
      studentMarksTool s ≠ notFoundMsg s := by
    intro k hf
    have hp : strContains (pyStrip (pyLower s)) k = true := List.find?_some hf
    have hk := List.mem_of_find?_eq_some hf
    have h4 : k = "john" ∨ k = "sarah" ∨ k = "mike" ∨ k = "bob" := by
      simpa [studentKeys, students] using hk
    have hres : studentMarksTool s = reportForKey k := by
      rcases h4 with h | h | h | h <;> subst h <;>
        (simp only [studentMarksTool, hf]; rfl)
    refine ⟨hp, hres, ?_⟩
    rw [hres]
    rcases h4 with h | h | h | h <;> subst h <;>
      exact academicReport_ne_notFound _ _ _ _
  have hnone :
      studentKeys.find? (fun k2 => strContains (pyStrip (pyLower s)) k2) = none →
      studentMarksTool s = notFoundMsg s := by
    intro hf
    have hall := List.find?_eq_none.mp hf
    have h2 : students.find? (fun p => p.1 == pyStrip (pyLower s)) = none := by
      rw [List.find?_eq_none]
      intro p hpmem hbeq
      have hkeys : p.1 ∈ studentKeys := List.mem_map_of_mem Prod.fst hpmem
      have heq : p.1 = pyStrip (pyLower s) := by simpa using hbeq
      have hnc := hall p.1 hkeys
      rw [heq] at hnc
      exact hnc (strContains_self _)
    simp [studentMarksTool, hf, h2]
  refine ⟨hsome, hnone, ?_⟩
  intro hres
  cases hf : studentKeys.find? (fun k2 => strContains (pyStrip (pyLower s)) k2) with
  | none => rfl
  | some k => exact absurd hres (hsome k hf).2.2

/-- C10 witness: the argument "Johnson" contains "john" as a substring and
yields John\x27s report, not the not-found message. -/
theorem C10_student_substring_witness :
    studentKeys.find? (fun k2 => strContains (pyStrip (pyLower "Johnson")) k2) =
      some "john" ∧
    studentMarksTool "Johnson" = reportForKey "john" ∧
    studentMarksTool "Johnson" ≠ notFoundMsg "Johnson" :=
  ⟨by decide,
   ((C10_student_substring "Johnson").1 "john" (by decide)).2.1,
   ((C10_student_substring "Johnson").1 "john" (by decide)).2.2⟩

end Chatbot
